import Mathlib

/-!
Shallow embedding of the panda safety-policy hooks from
`board/safety/safety_defaults_HKG.h` (hysteresis HKG variant) and
`board/safety/safety_defaults_test.h` (plain test variant), together with
proofs of the specification's claims about them.

CAN packets are modelled as records carrying the fields the hooks read via
the frame accessors (`GET_BUS`, `GET_ADDR`) plus an opaque payload; machine
`int` values are modelled as `Int`.  The two globals of the HKG variant
(`HKG_forward_bus2`, `HKG_LKAS_bus0_cnt`) are gathered into an explicit
state record threaded through the `rx` hook.
-/

/-- A received/outgoing CAN frame: source bus, address identifier, payload.
The hooks only ever read `bus` and `addr` (via the frame accessors). -/
structure CANPacket where
  bus : Int
  addr : Int
  data : List Nat
  deriving DecidableEq, Repr

namespace HKG

/-- The two globals of `safety_defaults_HKG.h`:
`bool HKG_forward_bus2 = true; int HKG_LKAS_bus0_cnt = 0;`. -/
structure HKGState where
  HKG_forward_bus2 : Bool
  HKG_LKAS_bus0_cnt : Int
  deriving DecidableEq, Repr

/-- The initial values of the two globals. -/
def HKGState.init : HKGState :=
  { HKG_forward_bus2 := true, HKG_LKAS_bus0_cnt := 0 }

/-- `default_rx_hook` of the HKG variant: returns the accept verdict and the
updated globals.  Mirrors the C control flow: on the watched address 832, a
bus-0 receive re-arms the hold counter to 10 and (edge-guarded) clears
`HKG_forward_bus2`; a bus-2 receive decrements a positive hold counter, and
otherwise (edge-guarded) sets `HKG_forward_bus2`.  Always returns `true`. -/
def default_rx_hook (to_push : CANPacket) (s : HKGState) : Bool × HKGState :=
  let bus := to_push.bus
  let addr := to_push.addr
  let s :=
    if addr = 832 then
      let s :=
        if bus = 0 then
          let s1 : HKGState := { s with HKG_LKAS_bus0_cnt := 10 }
          if s1.HKG_forward_bus2 then { s1 with HKG_forward_bus2 := false }
          else s1
        else s
      if bus = 2 then
        if s.HKG_LKAS_bus0_cnt > 0 then
          { s with HKG_LKAS_bus0_cnt := s.HKG_LKAS_bus0_cnt - 1 }
        else if s.HKG_forward_bus2 = false then
          { s with HKG_forward_bus2 := true }
        else s
      else s
    else s
  (true, s)

/-- The state part of `default_rx_hook`. -/
def rxState (to_push : CANPacket) (s : HKGState) : HKGState :=
  (default_rx_hook to_push s).2

/-- `default_fwd_hook` of the HKG variant: starting from `bus_fwd = -1`,
only when `HKG_forward_bus2` holds do bus 0 map to 2 and bus 2 map to 0;
the frame itself is unused. -/
def default_fwd_hook (s : HKGState) (bus_num : Int) (to_fwd : CANPacket) : Int :=
  let _ := to_fwd
  let bus_fwd : Int := -1
  if s.HKG_forward_bus2 then
    let bus_fwd := if bus_num = 0 then (2 : Int) else bus_fwd
    if bus_num = 2 then (0 : Int) else bus_fwd
  else bus_fwd

/-- The process-wide safety latches touched by the HKG variant inits. -/
structure Globals where
  controls_allowed : Bool
  relay_malfunction : Bool
  deriving DecidableEq, Repr

/-- Modelled from the spec: `relay_malfunction_reset` is defined outside the
given sources; per the spec it "resets the relay-malfunction latch". -/
def relay_malfunction_reset (g : Globals) : Globals :=
  { g with relay_malfunction := false }

/-- `nooutput_init` of the HKG variant: clears `controls_allowed` and resets
the relay-malfunction latch; `param` is unused. -/
def nooutput_init (param : Int) (g : Globals) : Globals :=
  let _ := param
  relay_malfunction_reset { g with controls_allowed := false }

/-- `nooutput_tx_hook`: rejects every outgoing frame. -/
def nooutput_tx_hook (to_send : CANPacket) : Bool :=
  let _ := to_send
  false

/-- `nooutput_tx_lin_hook`: rejects every LIN transmission. -/
def nooutput_tx_lin_hook (lin_num : Int) (data : List Nat) (len : Int) : Bool :=
  let _ := lin_num
  let _ := data
  let _ := len
  false

/-- `alloutput_init` of the HKG variant: sets `controls_allowed` and resets
the relay-malfunction latch; `param` is unused. -/
def alloutput_init (param : Int) (g : Globals) : Globals :=
  let _ := param
  relay_malfunction_reset { g with controls_allowed := true }

/-- `alloutput_tx_hook`: permits every outgoing frame. -/
def alloutput_tx_hook (to_send : CANPacket) : Bool :=
  let _ := to_send
  true

/-- `alloutput_tx_lin_hook`: permits every LIN transmission. -/
def alloutput_tx_lin_hook (lin_num : Int) (data : List Nat) (len : Int) : Bool :=
  let _ := lin_num
  let _ := data
  let _ := len
  true

end HKG

namespace TestV

/-- `default_rx_hook` of the plain test variant: unconditionally accepts. -/
def default_rx_hook (to_push : CANPacket) : Bool :=
  let _ := to_push
  true

/-- `default_fwd_hook` of the test variant: bus 0 maps to 2, bus 1 to 20,
bus 2 to 0 unless the frame's address is 832 or 1157; anything else keeps
the sentinel `-1`. -/
def default_fwd_hook (bus_num : Int) (to_fwd : CANPacket) : Int :=
  let bus_fwd : Int := -1
  let addr := to_fwd.addr
  let bus_fwd := if bus_num = 0 then (2 : Int) else bus_fwd
  let bus_fwd := if bus_num = 1 then (20 : Int) else bus_fwd
  if bus_num = 2 ∧ addr ≠ 832 ∧ addr ≠ 1157 then (0 : Int) else bus_fwd

/-- CAN addressing modes of the board, as far as the test-variant init
touches them (`CAN_MODE_OBD_CAN2` is defined outside the given sources). -/
inductive CANMode where
  | normal
  | obd_can2
  deriving DecidableEq, Repr

/-- Safety latches plus the board state touched by the test-variant
`nooutput_init` (`current_board->has_obd`, `set_can_mode`). -/
structure Globals where
  controls_allowed : Bool
  relay_malfunction : Bool
  has_obd : Bool
  can_mode : CANMode
  deriving DecidableEq, Repr

/-- Modelled from the spec: `relay_malfunction_reset` is defined outside the
given sources; per the spec it "resets the relay-malfunction latch". -/
def relay_malfunction_reset (g : Globals) : Globals :=
  { g with relay_malfunction := false }

/-- `nooutput_init` of the test variant: clears `controls_allowed`, resets
the relay-malfunction latch, and, when the board has OBD capability,
switches the CAN mode to OBD-on-CAN2; `param` is unused. -/
def nooutput_init (param : Int) (g : Globals) : Globals :=
  let _ := param
  let g := relay_malfunction_reset { g with controls_allowed := false }
  if g.has_obd then { g with can_mode := CANMode.obd_can2 } else g

/-- `nooutput_tx_hook`: rejects every outgoing frame. -/
def nooutput_tx_hook (to_send : CANPacket) : Bool :=
  let _ := to_send
  false

/-- `nooutput_tx_lin_hook`: rejects every LIN transmission. -/
def nooutput_tx_lin_hook (lin_num : Int) (data : List Nat) (len : Int) : Bool :=
  let _ := lin_num
  let _ := data
  let _ := len
  false

/-- `alloutput_init` of the test variant: sets `controls_allowed` and resets
the relay-malfunction latch; `param` is unused. -/
def alloutput_init (param : Int) (g : Globals) : Globals :=
  let _ := param
  relay_malfunction_reset { g with controls_allowed := true }

/-- `alloutput_tx_hook`: permits every outgoing frame. -/
def alloutput_tx_hook (to_send : CANPacket) : Bool :=
  let _ := to_send
  true

/-- `alloutput_tx_lin_hook`: permits every LIN transmission. -/
def alloutput_tx_lin_hook (lin_num : Int) (data : List Nat) (len : Int) : Bool :=
  let _ := lin_num
  let _ := data
  let _ := len
  true

end TestV

namespace HKG

/-- A frame with the watched address 832 arriving on bus 0. -/
def lkasBus0 : CANPacket := { bus := 0, addr := 832, data := [] }

/-- A frame with the watched address 832 arriving on bus 2. -/
def lkasBus2 : CANPacket := { bus := 2, addr := 832, data := [] }

/-- The hysteresis state after one bus-0 receive of address 832 from the
initial state, followed by `n` bus-2 receives of address 832. -/
def traceState (n : Nat) : HKGState :=
  (rxState lkasBus2)^[n] (rxState lkasBus0 HKGState.init)

/-- States of the two HKG globals reachable from their initial values by
invocations of the receive hook. -/
inductive Reachable : HKGState → Prop where
  | init : Reachable HKGState.init
  | step (s : HKGState) (p : CANPacket) : Reachable s → Reachable (rxState p s)

end HKG

/-- Claim C1, as stated, is false: after the bus-0 receive of address 832
and then ten bus-2 receives of address 832, `HKG_forward_bus2` is still
false (the tenth bus-2 receive only decrements the hold count from 1 to 0);
only the eleventh bus-2 receive flips it back to true. -/
theorem claim1_counterexample :
    (HKG.traceState 10).HKG_forward_bus2 = false ∧
    (HKG.traceState 10).HKG_LKAS_bus0_cnt = 0 ∧
    (HKG.traceState 11).HKG_forward_bus2 = true := by
  decide

/-- Claim C1 (amended): starting from `forward_enabled = true` and hold
count 0, a bus-0 receive of address 832 sets the hold count to 10 and
`forward_enabled` to false; each of the next ten bus-2 receives of address
832 decrements the hold count (to `10 - k` after `k` of them) while
`forward_enabled` stays false; and the eleventh bus-2 receive flips
`forward_enabled` back to true — relaying resumes after exactly 11 bus-2
occurrences of the watched address following the bus-0 occurrence. -/
theorem claim1_hysteresis_trace :
    HKG.traceState 0 = { HKG_forward_bus2 := false, HKG_LKAS_bus0_cnt := 10 } ∧
    (∀ k : Fin 11,
      (HKG.traceState k.val).HKG_forward_bus2 = false ∧
      (HKG.traceState k.val).HKG_LKAS_bus0_cnt = 10 - (k.val : Int)) ∧
    (HKG.traceState 11).HKG_forward_bus2 = true ∧
    (HKG.traceState 11).HKG_LKAS_bus0_cnt = 0 := by
  decide

/-- Claim C2: the hysteresis (HKG) forwarding router: with
`HKG_forward_bus2 = true`, bus 0 forwards to 2 and bus 2 to 0, every other
source bus yields −1; with `HKG_forward_bus2 = false`, every source bus
yields −1; the frame and the hold count never matter. -/
theorem claim2_hkg_fwd_routing (c : Int) (bus_num : Int) (f : CANPacket) :
    HKG.default_fwd_hook { HKG_forward_bus2 := true, HKG_LKAS_bus0_cnt := c } bus_num f =
      (if bus_num = 0 then 2 else if bus_num = 2 then 0 else -1) ∧
    HKG.default_fwd_hook { HKG_forward_bus2 := false, HKG_LKAS_bus0_cnt := c } bus_num f = -1 := by
  constructor
  · simp only [HKG.default_fwd_hook]
    split_ifs <;> omega
  · rfl

/-- Claim C3: the test-variant forwarding router: bus 0 forwards to 2,
bus 1 to 20, bus 2 to −1 for addresses 832 and 1157 and to 0 otherwise, and
every other source bus yields −1 (no forward). -/
theorem claim3_test_fwd_routing (bus_num : Int) (f : CANPacket) :
    TestV.default_fwd_hook bus_num f =
      (if bus_num = 0 then 2
       else if bus_num = 1 then 20
       else if bus_num = 2 then (if f.addr = 832 ∨ f.addr = 1157 then -1 else 0)
       else -1) := by
  simp only [TestV.default_fwd_hook]
  split_ifs <;> omega

/-- Claim C4: the No-Output policy, in both variants: `tx` returns false
for every frame, `tx_lin` returns false for every input, and `init` — for
every `param` and prior latch state — clears `controls_allowed` and resets
the relay-malfunction latch. -/
theorem claim4_nooutput_policy :
    (∀ f : CANPacket, HKG.nooutput_tx_hook f = false) ∧
    (∀ (n : Int) (d : List Nat) (l : Int), HKG.nooutput_tx_lin_hook n d l = false) ∧
    (∀ (p : Int) (g : HKG.Globals),
      (HKG.nooutput_init p g).controls_allowed = false ∧
      (HKG.nooutput_init p g).relay_malfunction = false) ∧
    (∀ f : CANPacket, TestV.nooutput_tx_hook f = false) ∧
    (∀ (n : Int) (d : List Nat) (l : Int), TestV.nooutput_tx_lin_hook n d l = false) ∧
    (∀ (p : Int) (g : TestV.Globals),
      (TestV.nooutput_init p g).controls_allowed = false ∧
      (TestV.nooutput_init p g).relay_malfunction = false) := by
  refine ⟨fun _ => rfl, fun _ _ _ => rfl, fun _ _ => ⟨rfl, rfl⟩,
    fun _ => rfl, fun _ _ _ => rfl, fun p g => ?_⟩
  simp only [TestV.nooutput_init, TestV.relay_malfunction_reset]
  split <;> exact ⟨rfl, rfl⟩

/-- Claim C5: the All-Output policy, in both variants: `tx` returns true
for every frame, `tx_lin` returns true for every input, and `init` — for
every `param` and prior latch state — sets `controls_allowed` and resets
the relay-malfunction latch. -/
theorem claim5_alloutput_policy :
    (∀ f : CANPacket, HKG.alloutput_tx_hook f = true) ∧
    (∀ (n : Int) (d : List Nat) (l : Int), HKG.alloutput_tx_lin_hook n d l = true) ∧
    (∀ (p : Int) (g : HKG.Globals),
      (HKG.alloutput_init p g).controls_allowed = true ∧
      (HKG.alloutput_init p g).relay_malfunction = false) ∧
    (∀ f : CANPacket, TestV.alloutput_tx_hook f = true) ∧
    (∀ (n : Int) (d : List Nat) (l : Int), TestV.alloutput_tx_lin_hook n d l = true) ∧
    (∀ (p : Int) (g : TestV.Globals),
      (TestV.alloutput_init p g).controls_allowed = true ∧
      (TestV.alloutput_init p g).relay_malfunction = false) :=
  ⟨fun _ => rfl, fun _ _ _ => rfl, fun _ _ => ⟨rfl, rfl⟩,
    fun _ => rfl, fun _ _ _ => rfl, fun _ _ => ⟨rfl, rfl⟩⟩

/-- Claim C6: the receive hook accepts every frame in both variants: the
HKG variant returns true for every frame and every hysteresis state, and
the test variant returns true for every frame. -/
theorem claim6_rx_always_accepts :
    (∀ (f : CANPacket) (s : HKG.HKGState), (HKG.default_rx_hook f s).1 = true) ∧
    (∀ f : CANPacket, TestV.default_rx_hook f = true) :=
  ⟨fun _ _ => rfl, fun _ => rfl⟩

/-- Claim C7: `HKG_forward_bus2` transitions are edge-triggered: whenever
the receive hook changes it, the new value is the negation of the old; it
falls to false only on a bus-0 receive of address 832, and rises to true
only on a bus-2 receive of address 832 with the hold count not positive;
and a bus-0 receive of address 832 while it is already false merely re-arms
the hold count to 10, leaving the flag false (no duplicate edge). -/
theorem claim7_edge_triggered (s : HKG.HKGState) (f : CANPacket) :
    ((HKG.rxState f s).HKG_forward_bus2 ≠ s.HKG_forward_bus2 →
      (HKG.rxState f s).HKG_forward_bus2 = !s.HKG_forward_bus2) ∧
    (s.HKG_forward_bus2 = true → (HKG.rxState f s).HKG_forward_bus2 = false →
      f.addr = 832 ∧ f.bus = 0) ∧
    (s.HKG_forward_bus2 = false → (HKG.rxState f s).HKG_forward_bus2 = true →
      f.addr = 832 ∧ f.bus = 2 ∧ ¬ s.HKG_LKAS_bus0_cnt > 0) ∧
    (s.HKG_forward_bus2 = false →
      HKG.rxState { bus := 0, addr := 832, data := f.data } s =
        { HKG_forward_bus2 := false, HKG_LKAS_bus0_cnt := 10 }) := by
  simp only [HKG.rxState, HKG.default_rx_hook]
  split_ifs <;> simp_all

/-- Claim C7 witness: the edge conditions hold at concrete inputs: the
initial state with a bus-0 frame of address 832, a suspended state with a
bus-2 frame of address 832 and hold count 0, and a suspended state with
hold count 3 re-armed by a bus-0 frame of address 832. -/
theorem claim7_edge_triggered_witness :
    (HKG.lkasBus0.addr = 832 ∧ HKG.lkasBus0.bus = 0) ∧
    (HKG.lkasBus2.addr = 832 ∧ HKG.lkasBus2.bus = 2 ∧ ¬ (0 : Int) > 0) ∧
    HKG.rxState { bus := 0, addr := 832, data := [] }
        { HKG_forward_bus2 := false, HKG_LKAS_bus0_cnt := 3 } =
      { HKG_forward_bus2 := false, HKG_LKAS_bus0_cnt := 10 } :=
  ⟨(claim7_edge_triggered HKG.HKGState.init HKG.lkasBus0).2.1 rfl (by decide),
    (claim7_edge_triggered { HKG_forward_bus2 := false, HKG_LKAS_bus0_cnt := 0 }
      HKG.lkasBus2).2.2.1 rfl (by decide),
    (claim7_edge_triggered { HKG_forward_bus2 := false, HKG_LKAS_bus0_cnt := 3 }
      { bus := 0, addr := 832, data := [] }).2.2.2 rfl⟩

/-- Claim C8: the hold count `HKG_LKAS_bus0_cnt` starts at 0 and stays
non-negative in every state reachable from the initial globals by receive
hook invocations (it is only ever set to 10 or decremented when strictly
positive). -/
theorem claim8_hold_count_nonneg :
    HKG.HKGState.init.HKG_LKAS_bus0_cnt = 0 ∧
    ∀ s : HKG.HKGState, HKG.Reachable s → 0 ≤ s.HKG_LKAS_bus0_cnt := by
  refine ⟨rfl, fun s h => ?_⟩
  induction h with
  | init => decide
  | step s p _ ih =>
      simp only [HKG.rxState, HKG.default_rx_hook]
      split_ifs <;> simp_all
      omega

/-- Claim C8 witness: the hold count is non-negative in the concrete
reachable state obtained by one bus-0 receive of address 832 from the
initial state. -/
theorem claim8_hold_count_nonneg_witness :
    0 ≤ (HKG.rxState HKG.lkasBus0 HKG.HKGState.init).HKG_LKAS_bus0_cnt :=
  claim8_hold_count_nonneg.2 _
    (HKG.Reachable.step HKG.HKGState.init HKG.lkasBus0 HKG.Reachable.init)

/-- Claim C9: noninterference of the HKG forwarding router: for a fixed
hysteresis state and source bus, the routing decision is the same for any
two frames — it never reads the frame's address or payload. -/
theorem claim9_fwd_noninterference (s : HKG.HKGState) (bus_num : Int)
    (f1 f2 : CANPacket) :
    HKG.default_fwd_hook s bus_num f1 = HKG.default_fwd_hook s bus_num f2 :=
  rfl

/-- Claim C10: frame condition of the HKG receive hook: a frame whose
address is not 832, or whose address is 832 but whose bus is neither 0 nor
2, leaves both `HKG_forward_bus2` and `HKG_LKAS_bus0_cnt` unchanged. -/
theorem claim10_rx_frame_condition (s : HKG.HKGState) (f : CANPacket)
    (h : f.addr ≠ 832 ∨ (f.addr = 832 ∧ f.bus ≠ 0 ∧ f.bus ≠ 2)) :
    HKG.rxState f s = s := by
  simp only [HKG.rxState, HKG.default_rx_hook]
  split_ifs <;> simp_all

/-- Claim C10 witness: a frame of address 832 on bus 1 leaves the initial
state unchanged. -/
theorem claim10_rx_frame_condition_witness :
    HKG.rxState { bus := 1, addr := 832, data := [] } HKG.HKGState.init =
      HKG.HKGState.init :=
  claim10_rx_frame_condition HKG.HKGState.init
    { bus := 1, addr := 832, data := [] }
    (Or.inr ⟨rfl, by decide, by decide⟩)
